import Mathlib

/-!
# Live container reconfiguration (`daemon/update.go`)

A shallow embedding of `Daemon.ContainerUpdate`, `Daemon.ContainerUpdateCmdOnBuild`,
`Daemon.update` and `errCannotUpdate`.

* Go pointers into the registry become explicit state passing: the container found by
  `GetContainer` is edited as a value and written back to the very slot it was found in.
* Every call to a collaborator is appended to a chronological call log kept in the daemon,
  so that "exactly one call", "no call" and "called before" can be stated.
* Outcomes that the environment decides (verification, persistence, the state reached after
  the bounded wait, the runtime push) are fields of `Collaborators`; theorems quantify over
  all of them.
* A Go `error` is `Option Error` (`none` is `nil`); a `*HostConfig` is `Option HostConfig`.
* `Lock`/`Unlock` are not modelled: the embedding is sequential.
-/

namespace DockerUpdate

/-- A Go `error` value that is not nil, identified with its message. -/
abbrev Error := String

/-- The restart policy carried by a host configuration (`container.RestartPolicy`). -/
structure RestartPolicy where
  Name : String
  MaximumRetryCount : Int
  deriving DecidableEq, Repr

/-- The configuration record (`container.HostConfig`), restricted to the fields read by
`daemon/update.go`.  The Go field types live in the engine-api package, which is not among
the sources; numeric fields are taken as mathematical integers, which covers every signed
or unsigned machine width. -/
structure HostConfig where
  BlkioWeight : Int
  CPUShares : Int
  CPUPeriod : Int
  CPUQuota : Int
  CpusetCpus : String
  CpusetMems : String
  Memory : Int
  MemorySwap : Int
  MemoryReservation : Int
  KernelMemory : Int
  RestartPolicy : RestartPolicy
  deriving DecidableEq, Repr

/-- The resource-update request of the runtime client (`libcontainerd.Resources`); every
numeric field is a `uint32`. -/
structure Resources where
  BlkioWeight : Nat
  CpuShares : Nat
  CpuPeriod : Nat
  CpuQuota : Nat
  CpusetCpus : String
  CpusetMems : String
  MemoryLimit : Nat
  MemorySwap : Nat
  MemoryReservation : Nat
  KernelMemoryLimit : Nat
  deriving DecidableEq, Repr

/-- Lifecycle flags of a container (`container.State`). -/
structure State where
  Running : Bool
  Restarting : Bool
  RemovalInProgress : Bool
  Dead : Bool
  deriving DecidableEq, Repr

/-- A container as seen by `daemon/update.go`.  `MonitorPolicy` is the policy currently held
by the container's restart monitor.  A registered container always has a configuration
record: the Go pointer `container.HostConfig` is taken to be non-nil. -/
structure Container where
  ID : String
  Name : String
  Path : String
  Args : List String
  HostConfig : HostConfig
  State : State
  MonitorPolicy : RestartPolicy
  deriving DecidableEq, Repr

/-- One call to a collaborator, as recorded in the daemon's call log. -/
inductive Call where
  | UpdateContainer (id : String) (hostConfig : HostConfig)
  | ToDisk (id : String) (hostConfig : HostConfig)
  | UpdateMonitor (id : String) (policy : RestartPolicy)
  | WaitRunning (id : String) (seconds : Nat)
  | UpdateResources (id : String) (r : Resources)
  | LogContainerEvent (id : String) (action : String)
  deriving DecidableEq, Repr

/-- Outcomes decided by the collaborators of the update workflow.
`verifyContainerSettings` is applied to the requested configuration (the other two
arguments are the constants `nil` and `true`); `ToDisk` is the result of persisting the
given container; `WaitRunning` is the lifecycle state of the container with the given ID at
the moment the bounded wait returns; `UpdateResources` is the result of the runtime push. -/
structure Collaborators where
  verifyContainerSettings : Option HostConfig → List String × Option Error
  ToDisk : Container → Option Error
  WaitRunning : String → State
  UpdateResources : String → Resources → Option Error

/-- The daemon: its container registry and the log of collaborator calls, oldest first. -/
structure Daemon where
  containers : List Container
  calls : List Call
  deriving DecidableEq, Repr

/-- Go conversion `uint32(x)` of an integer: the value modulo `2^32`. -/
def uint32 (x : Int) : Nat := (x % 2 ^ 32).toNat

/-- `errCannotUpdate` (update.go:107-109):
`fmt.Errorf("Cannot update container %s: %v", containerID, err)`. -/
def errCannotUpdate (containerID : String) (err : Error) : Error :=
  "Cannot update container " ++ containerID ++ ": " ++ err

/-- The request built in update.go:85-95 from the requested configuration. -/
def resourcesOf (hostConfig : HostConfig) : Resources where
  BlkioWeight := uint32 hostConfig.BlkioWeight
  CpuShares := uint32 hostConfig.CPUShares
  CpuPeriod := uint32 hostConfig.CPUPeriod
  CpuQuota := uint32 hostConfig.CPUQuota
  CpusetCpus := hostConfig.CpusetCpus
  CpusetMems := hostConfig.CpusetMems
  MemoryLimit := uint32 hostConfig.Memory
  MemorySwap := uint32 hostConfig.MemorySwap
  MemoryReservation := uint32 hostConfig.MemoryReservation
  KernelMemoryLimit := uint32 hostConfig.KernelMemory

/-- Modelled from the spec: `State.IsRunning` (package `container`, not among the sources)
reads the `Running` lifecycle flag. -/
def Container.IsRunning (c : Container) : Bool := c.State.Running

/-- Modelled from the spec: `State.IsRestarting` (package `container`, not among the
sources) reads the `Restarting` lifecycle flag. -/
def Container.IsRestarting (c : Container) : Bool := c.State.Restarting

/-- Modelled from the spec: `Container.UpdateContainer` (package `container`, not among the
sources) stages the new configuration record onto the container in memory and persists it
to the on-disk metadata store; it fails when persisting fails.  Returns the container after
the call, the collaborator calls made, and the error. -/
def Container.UpdateContainer (env : Collaborators) (c : Container)
    (hostConfig : DockerUpdate.HostConfig) :
    Container × List Call × Option Error :=
  let staged : Container := { c with HostConfig := hostConfig }
  (staged, [Call.UpdateContainer c.ID hostConfig, Call.ToDisk c.ID hostConfig], env.ToDisk staged)

/-- Modelled from the spec: `Container.UpdateMonitor` (package `container`, not among the
sources) hands the new restart policy to the restart monitor. -/
def Container.UpdateMonitor (c : Container) (policy : RestartPolicy) : Container :=
  { c with MonitorPolicy := policy }

/-- Modelled from the spec: `State.WaitRunning` (package `container`, not among the sources)
blocks until the container runs or the timeout elapses; the container then carries the
lifecycle state the environment reports.  The returned values are dropped by the caller. -/
def Container.WaitRunning (env : Collaborators) (c : Container) : Container :=
  { c with State := env.WaitRunning c.ID }

/-- The registry's resolution test: a container answers to its ID and to its name. -/
def answersTo (name : String) (c : Container) : Bool := c.ID == name || c.Name == name

/-- Modelled from the spec: `Daemon.GetContainer` (daemon.go, not among the sources)
resolves a container by name or ID; an unknown name is a not-found failure. -/
def Daemon.GetContainer (daemon : Daemon) (name : String) : Except Error Container :=
  match daemon.containers.find? (answersTo name) with
  | some c => Except.ok c
  | none => Except.error ("No such container: " ++ name)

/-- Write `c` into the first slot of the registry whose container satisfies `p`. -/
def replaceFirst (p : Container → Bool) (c : Container) : List Container → List Container
  | [] => []
  | x :: xs => if p x then c :: xs else x :: replaceFirst p c xs

/-- Writing through the pointer returned by `GetContainer name`. -/
def Daemon.store (daemon : Daemon) (name : String) (c : Container) : Daemon :=
  { daemon with containers := replaceFirst (answersTo name) c daemon.containers }

/-- State of `Daemon.update` when its body returns, before the deferred function runs. -/
structure Frame where
  container : Container
  calls : List Call
  restoreConfig : Bool
  err : Option Error
  deriving DecidableEq, Repr

/-- Body of `Daemon.update` from the lifecycle check on (update.go:59-104), for the resolved
container and a non-nil requested configuration. -/
def updateBody (env : Collaborators) (container : Container) (hostConfig : HostConfig) : Frame :=
  if container.State.RemovalInProgress || container.State.Dead then
    { container := container, calls := [], restoreConfig := false,
      err := some (errCannotUpdate container.ID
        "Container is marked for removal and cannot be \"update\".") }
  else if container.IsRunning && hostConfig.KernelMemory != 0 then
    { container := container, calls := [], restoreConfig := false,
      err := some (errCannotUpdate container.ID
        "Can not update kernel memory to a running container, please stop it first.") }
  else
    match container.UpdateContainer env hostConfig with
    | (c1, calls1, some err) =>
      { container := c1, calls := calls1, restoreConfig := true,
        err := some (errCannotUpdate container.ID err) }
    | (c1, calls1, none) =>
      -- if Restart Policy changed, we need to update container monitor
      let c2 := c1.UpdateMonitor hostConfig.RestartPolicy
      let calls2 := calls1 ++ [Call.UpdateMonitor c1.ID hostConfig.RestartPolicy]
      -- if container is restarting, wait 5 seconds until it's running
      let c3 := if c2.IsRestarting then c2.WaitRunning env else c2
      let calls3 := if c2.IsRestarting then calls2 ++ [Call.WaitRunning c2.ID 5] else calls2
      if c3.IsRunning && !c3.IsRestarting then
        let r := resourcesOf hostConfig
        match env.UpdateResources c3.ID r with
        | some err =>
          { container := c3, calls := calls3 ++ [Call.UpdateResources c3.ID r],
            restoreConfig := true, err := some (errCannotUpdate c3.ID err) }
        | none =>
          { container := c3,
            calls := calls3 ++ [Call.UpdateResources c3.ID r, Call.LogContainerEvent c3.ID "update"],
            restoreConfig := false, err := none }
      else
        { container := c3, calls := calls3 ++ [Call.LogContainerEvent c3.ID "update"],
          restoreConfig := false, err := none }

/-- The deferred function of `Daemon.update` (update.go:50-57): when `restoreConfig` is set,
the snapshot becomes the container's configuration record again and the container is
persisted; the result of `ToDisk` is dropped. -/
def runDeferred (backupHostConfig : HostConfig) (f : Frame) : Frame :=
  if f.restoreConfig then
    { f with
      container := { f.container with HostConfig := backupHostConfig }
      calls := f.calls ++ [Call.ToDisk f.container.ID backupHostConfig] }
  else f

/-- `Daemon.update` (update.go:38-105).  Returns the daemon after the call and the error. -/
def Daemon.update (env : Collaborators) (daemon : Daemon) (name : String)
    (hostConfig : Option HostConfig) : Daemon × Option Error :=
  match hostConfig with
  | none => (daemon, none)
  | some hc =>
    match daemon.GetContainer name with
    | Except.error err => (daemon, some err)
    | Except.ok container =>
      let backupHostConfig := container.HostConfig
      let f := runDeferred backupHostConfig (updateBody env container hc)
      ({ daemon.store name f.container with calls := daemon.calls ++ f.calls }, f.err)

/-- `Daemon.ContainerUpdate` (update.go:12-25).  Returns the daemon after the call, the
warnings and the error. -/
def Daemon.ContainerUpdate (env : Collaborators) (daemon : Daemon) (name : String)
    (hostConfig : Option HostConfig) : Daemon × List String × Option Error :=
  match env.verifyContainerSettings hostConfig with
  | (warnings, some err) => (daemon, warnings, some err)
  | (warnings, none) =>
    match daemon.update env name hostConfig with
    | (daemon1, some err) => (daemon1, warnings, some err)
    | (daemon1, none) => (daemon1, warnings, none)

/-- `Daemon.ContainerUpdateCmdOnBuild` (update.go:28-36).  `none` is the run-time panic of
`cmd[0]` on an empty command list; otherwise the daemon after the call and the error. -/
def Daemon.ContainerUpdateCmdOnBuild (daemon : Daemon) (cID : String) (cmd : List String) :
    Option (Daemon × Option Error) :=
  match daemon.GetContainer cID with
  | Except.error err => some (daemon, some err)
  | Except.ok c =>
    match cmd with
    | [] => none
    | path :: args => some (daemon.store cID { c with Path := path, Args := args }, none)

/-- Lifecycle state of the container when the running test of update.go:84 is evaluated:
the state reported after the bounded wait if the container was restarting, its own state
otherwise. -/
def stateAtPush (env : Collaborators) (c : Container) : State :=
  if c.IsRestarting then env.WaitRunning c.ID else c.State

/-- Collaborators that accept every request and never fail; the bounded wait reports a
running container. -/
def acceptAll : Collaborators where
  verifyContainerSettings := fun _ => ([], none)
  ToDisk := fun _ => none
  WaitRunning := fun _ => { Running := true, Restarting := false, RemovalInProgress := false, Dead := false }
  UpdateResources := fun _ _ => none

/-- A daemon with no container at all. -/
def emptyDaemon : Daemon := { containers := [], calls := [] }

/-! ## Sample data -/

/-- Restart policy "no". -/
def policyNo : RestartPolicy := { Name := "no", MaximumRetryCount := 0 }

/-- Restart policy "on-failure" with three retries. -/
def policyOnFailure : RestartPolicy := { Name := "on-failure", MaximumRetryCount := 3 }

/-- A configuration record with the given CPU shares, memory limit and kernel-memory limit,
all other limits unset. -/
def mkConfig (shares memory kernel : Int) (policy : RestartPolicy) : HostConfig :=
  { BlkioWeight := 0, CPUShares := shares, CPUPeriod := 0, CPUQuota := 0, CpusetCpus := "",
    CpusetMems := "", Memory := memory, MemorySwap := 0, MemoryReservation := 0,
    KernelMemory := kernel, RestartPolicy := policy }

/-- Lifecycle state of a running container. -/
def stRunning : State :=
  { Running := true, Restarting := false, RemovalInProgress := false, Dead := false }

/-- Lifecycle state of a stopped container. -/
def stStopped : State :=
  { Running := false, Restarting := false, RemovalInProgress := false, Dead := false }

/-- Lifecycle state of a container in its restart cycle. -/
def stRestarting : State :=
  { Running := true, Restarting := true, RemovalInProgress := false, Dead := false }

/-- Lifecycle state of a dead container. -/
def stDead : State :=
  { Running := false, Restarting := false, RemovalInProgress := false, Dead := true }

/-- A container "web" with CPU shares 100 in the given lifecycle state. -/
def web (st : State) : Container :=
  { ID := "c0ffee", Name := "web", Path := "/bin/sh", Args := ["-c", "true"],
    HostConfig := mkConfig 100 0 0 policyNo, State := st, MonitorPolicy := policyNo }

/-- A daemon whose registry holds only `web st`. -/
def webDaemon (st : State) : Daemon := { containers := [web st], calls := [] }

/-- Collaborators like `acceptAll`, except that the runtime push fails. -/
def pushFails : Collaborators :=
  { acceptAll with UpdateResources := fun _ _ => some "rpc error" }

/-- Collaborators like `acceptAll`, except that persisting fails. -/
def diskFails : Collaborators :=
  { acceptAll with ToDisk := fun _ => some "disk full" }

/-- Collaborators like `acceptAll`, except that the bounded wait times out with the
container still restarting. -/
def waitTimesOut : Collaborators :=
  { acceptAll with WaitRunning := fun _ => stRestarting }

/-! ## Registry lemmas -/

theorem find_replaceFirst (p : Container → Bool) (c c1 : Container) (l : List Container)
    (hfind : l.find? p = some c) (hp : p c1 = true) :
    (replaceFirst p c1 l).find? p = some c1 := by
  induction l with
  | nil => simp at hfind
  | cons x xs ih =>
    by_cases hx : p x = true
    · simp [replaceFirst, hx, List.find?, hp]
    · have hx2 : p x = false := by simpa using hx
      rw [List.find?, hx2] at hfind
      simp only [replaceFirst, hx2, Bool.false_eq_true, if_false, List.find?]
      exact ih hfind

theorem replaceFirst_found (p : Container → Bool) (c : Container) (l : List Container)
    (hfind : l.find? p = some c) : replaceFirst p c l = l := by
  induction l with
  | nil => simp at hfind
  | cons x xs ih =>
    by_cases hx : p x = true
    · rw [List.find?, hx] at hfind
      simp only [Option.some.injEq] at hfind
      subst hfind
      simp [replaceFirst, hx]
    · have hx2 : p x = false := by simpa using hx
      rw [List.find?, hx2] at hfind
      simp only [replaceFirst, hx2, Bool.false_eq_true, if_false]
      rw [ih hfind]

theorem GetContainer_ok (daemon : Daemon) (name : String) (c : Container)
    (hget : daemon.GetContainer name = Except.ok c) :
    daemon.containers.find? (answersTo name) = some c := by
  unfold Daemon.GetContainer at hget
  split at hget
  · rename_i x hx
    rw [hx]
    injection hget with h
    rw [h]
  · exact absurd hget (by simp)

theorem GetContainer_answers (daemon : Daemon) (name : String) (c : Container)
    (hget : daemon.GetContainer name = Except.ok c) : answersTo name c = true :=
  List.find?_some (GetContainer_ok daemon name c hget)

theorem store_found (daemon : Daemon) (name : String) (c : Container)
    (hget : daemon.GetContainer name = Except.ok c) : daemon.store name c = daemon := by
  unfold Daemon.store
  rw [replaceFirst_found _ _ _ (GetContainer_ok daemon name c hget)]

theorem GetContainer_store (daemon : Daemon) (name : String) (c c1 : Container) (calls : List Call)
    (hget : daemon.GetContainer name = Except.ok c) (hid : c1.ID = c.ID) (hname : c1.Name = c.Name) :
    Daemon.GetContainer { daemon.store name c1 with calls := calls } name = Except.ok c1 := by
  have hans : answersTo name c1 = true := by
    have := GetContainer_answers daemon name c hget
    simpa [answersTo, hid, hname] using this
  unfold Daemon.GetContainer Daemon.store
  simp only
  rw [find_replaceFirst _ c c1 _ (GetContainer_ok daemon name c hget) hans]

/-- With the container resolved and a non-nil request, `update` is its body followed by the
deferred function, written back to the registry. -/
theorem update_resolved (env : Collaborators) (daemon : Daemon) (name : String)
    (hostConfig : HostConfig) (c : Container) (hget : daemon.GetContainer name = Except.ok c) :
    daemon.update env name (some hostConfig) =
      ({ daemon.store name (runDeferred c.HostConfig (updateBody env c hostConfig)).container with
          calls := daemon.calls ++ (runDeferred c.HostConfig (updateBody env c hostConfig)).calls },
        (runDeferred c.HostConfig (updateBody env c hostConfig)).err) := by
  simp [Daemon.update, hget]

/-- When verification passes, `ContainerUpdate` is `update` with the warnings attached. -/
theorem ContainerUpdate_verified (env : Collaborators) (daemon : Daemon) (name : String)
    (hostConfig : Option HostConfig) (hverify : (env.verifyContainerSettings hostConfig).2 = none) :
    daemon.ContainerUpdate env name hostConfig =
      ((daemon.update env name hostConfig).1, (env.verifyContainerSettings hostConfig).1,
        (daemon.update env name hostConfig).2) := by
  unfold Daemon.ContainerUpdate
  rcases hv : env.verifyContainerSettings hostConfig with ⟨w, e⟩
  rw [hv] at hverify
  simp only at hverify
  subst hverify
  rcases hu : daemon.update env name hostConfig with ⟨d1, e1⟩
  cases e1 <;> simp

/-! ## Precondition rejections -/

/-- C2 (kernel-memory guard): for a resolved container that is running, not dead and not
marked for removal, and a request with a non-zero kernel-memory limit, `update` returns the
error "Cannot update container <ID>: Can not update kernel memory to a running container,
please stop it first." and the daemon after the call is the daemon before it: the stored
record is unchanged and the call log has no new staging, persistence, monitor, runtime-push
or event entry.  When verification passes, `ContainerUpdate` surfaces the same error with
the same unchanged daemon. -/
theorem update_kernel_memory_guard (env : Collaborators) (daemon : Daemon) (name : String)
    (hostConfig : HostConfig) (container : Container)
    (hget : daemon.GetContainer name = Except.ok container)
    (hrem : container.State.RemovalInProgress = false) (hdead : container.State.Dead = false)
    (hrun : container.IsRunning = true) (hkm : hostConfig.KernelMemory ≠ 0) :
    daemon.update env name (some hostConfig) =
        (daemon, some ("Cannot update container " ++ container.ID ++ ": " ++
          "Can not update kernel memory to a running container, please stop it first.")) ∧
      (daemon.update env name (some hostConfig)).1.GetContainer name = Except.ok container ∧
      (daemon.update env name (some hostConfig)).1.calls = daemon.calls ∧
      ((env.verifyContainerSettings (some hostConfig)).2 = none →
        (daemon.ContainerUpdate env name (some hostConfig)).1 = daemon ∧
        (daemon.ContainerUpdate env name (some hostConfig)).2.2 =
          some (errCannotUpdate container.ID
            "Can not update kernel memory to a running container, please stop it first.")) := by
  have hbody : updateBody env container hostConfig =
      { container := container, calls := [], restoreConfig := false,
        err := some (errCannotUpdate container.ID
          "Can not update kernel memory to a running container, please stop it first.") } := by
    simp [updateBody, hrem, hdead, hrun, hkm]
  have hupd : daemon.update env name (some hostConfig) =
      (daemon, some (errCannotUpdate container.ID
        "Can not update kernel memory to a running container, please stop it first.")) := by
    rw [update_resolved env daemon name hostConfig container hget, hbody]
    simp [runDeferred, store_found daemon name container hget]
  refine ⟨by rw [hupd]; rfl, by rw [hupd]; exact hget, by rw [hupd], ?_⟩
  intro hverify
  rw [ContainerUpdate_verified env daemon name (some hostConfig) hverify, hupd]
  exact ⟨rfl, rfl⟩

/-- Witness for C2: the running container "web" and a request with kernel-memory limit
4194304. -/
theorem update_kernel_memory_guard_witness :
    (webDaemon stRunning).update acceptAll "web" (some (mkConfig 200 0 4194304 policyNo)) =
      (webDaemon stRunning, some ("Cannot update container " ++ (web stRunning).ID ++ ": " ++
        "Can not update kernel memory to a running container, please stop it first.")) :=
  (update_kernel_memory_guard acceptAll (webDaemon stRunning) "web"
    (mkConfig 200 0 4194304 policyNo) (web stRunning) rfl rfl rfl rfl (by decide)).1

/-- C3 (idempotence of rejection): for a container flagged `Dead` or `RemovalInProgress`,
every call of `ContainerUpdate` (any name resolving to it, any requested configuration, nil
included, any outcome of verification) leaves the whole daemon as it was; in particular the
name still resolves to the same container with the same configuration record.  The same
holds for `update` called directly. -/
theorem ContainerUpdate_rejected_unchanged (env : Collaborators) (daemon : Daemon) (name : String)
    (hostConfig : Option HostConfig) (container : Container)
    (hget : daemon.GetContainer name = Except.ok container)
    (hflag : container.State.Dead = true ∨ container.State.RemovalInProgress = true) :
    (daemon.ContainerUpdate env name hostConfig).1 = daemon ∧
      (daemon.update env name hostConfig).1 = daemon ∧
      (∃ c, (daemon.ContainerUpdate env name hostConfig).1.GetContainer name = Except.ok c ∧
        c.HostConfig = container.HostConfig) := by
  have hupd : (daemon.update env name hostConfig).1 = daemon := by
    cases hostConfig with
    | none => rfl
    | some hc =>
      have hbody : updateBody env container hc =
          { container := container, calls := [], restoreConfig := false,
            err := some (errCannotUpdate container.ID
              "Container is marked for removal and cannot be \"update\".") } := by
        rcases hflag with h | h <;> simp [updateBody, h]
      rw [update_resolved env daemon name hc container hget, hbody]
      simp [runDeferred, store_found daemon name container hget]
  have hcu : (daemon.ContainerUpdate env name hostConfig).1 = daemon := by
    unfold Daemon.ContainerUpdate
    rcases hv : env.verifyContainerSettings hostConfig with ⟨w, e⟩
    cases e with
    | some e => rfl
    | none =>
      rcases hu : daemon.update env name hostConfig with ⟨d1, e1⟩
      rw [hu] at hupd
      cases e1 <;> exact hupd
  exact ⟨hcu, hupd, container, by rw [hcu]; exact hget, rfl⟩

/-- Witness for C3: the dead container "web", addressed by its ID. -/
theorem ContainerUpdate_rejected_unchanged_witness :
    ((webDaemon stDead).ContainerUpdate acceptAll "c0ffee"
      (some (mkConfig 200 0 0 policyOnFailure))).1 = webDaemon stDead :=
  (ContainerUpdate_rejected_unchanged acceptAll (webDaemon stDead) "c0ffee"
    (some (mkConfig 200 0 0 policyOnFailure)) (web stDead) rfl (Or.inl rfl)).1

/-! ## The staged paths -/

/-- Body of `update` when the preconditions pass and staging fails. -/
theorem updateBody_stage_failed (env : Collaborators) (c : Container) (hc : HostConfig) (e : Error)
    (hrem : c.State.RemovalInProgress = false) (hdead : c.State.Dead = false)
    (hkm : c.IsRunning = true → hc.KernelMemory = 0)
    (hstage : (c.UpdateContainer env hc).2.2 = some e) :
    updateBody env c hc =
      { container := { c with HostConfig := hc },
        calls := [Call.UpdateContainer c.ID hc, Call.ToDisk c.ID hc],
        restoreConfig := true, err := some (errCannotUpdate c.ID e) } := by
  have hpre : (c.State.Running && hc.KernelMemory != 0) = false := by
    cases hr : c.State.Running with
    | false => rfl
    | true => simp [hkm hr]
  simp only [Container.UpdateContainer] at hstage
  simp [updateBody, hrem, hdead, hpre, Container.IsRunning, Container.UpdateContainer, hstage]

/-- Body of `update` when the preconditions pass, staging succeeds and the running test of
update.go:84 holds: the outcome is decided by the runtime push. -/
theorem updateBody_pushed (env : Collaborators) (c : Container) (hc : HostConfig)
    (hrem : c.State.RemovalInProgress = false) (hdead : c.State.Dead = false)
    (hkm : c.IsRunning = true → hc.KernelMemory = 0)
    (hstage : (c.UpdateContainer env hc).2.2 = none)
    (hrun : (stateAtPush env c).Running = true) (hnr : (stateAtPush env c).Restarting = false) :
    updateBody env c hc =
      match env.UpdateResources c.ID (resourcesOf hc) with
      | some e =>
        { container := { c with HostConfig := hc, MonitorPolicy := hc.RestartPolicy,
                                State := stateAtPush env c },
          calls := [Call.UpdateContainer c.ID hc, Call.ToDisk c.ID hc,
                    Call.UpdateMonitor c.ID hc.RestartPolicy] ++
                   (if c.IsRestarting then [Call.WaitRunning c.ID 5] else []) ++
                   [Call.UpdateResources c.ID (resourcesOf hc)],
          restoreConfig := true, err := some (errCannotUpdate c.ID e) }
      | none =>
        { container := { c with HostConfig := hc, MonitorPolicy := hc.RestartPolicy,
                                State := stateAtPush env c },
          calls := [Call.UpdateContainer c.ID hc, Call.ToDisk c.ID hc,
                    Call.UpdateMonitor c.ID hc.RestartPolicy] ++
                   (if c.IsRestarting then [Call.WaitRunning c.ID 5] else []) ++
                   [Call.UpdateResources c.ID (resourcesOf hc),
                    Call.LogContainerEvent c.ID "update"],
          restoreConfig := false, err := none } := by
  have hpre : (c.State.Running && hc.KernelMemory != 0) = false := by
    cases hr : c.State.Running with
    | false => rfl
    | true => simp [hkm hr]
  simp only [Container.UpdateContainer] at hstage
  cases hrs : c.State.Restarting with
  | false =>
    simp only [stateAtPush, Container.IsRestarting, hrs, Bool.false_eq_true, if_false] at hrun hnr
    have hkz : hc.KernelMemory = 0 := hkm hrun
    cases hp : env.UpdateResources c.ID (resourcesOf hc) <;>
      simp [updateBody, hrem, hdead, hkz, Container.UpdateContainer, hstage,
        Container.UpdateMonitor, Container.IsRestarting, Container.IsRunning,
        Container.WaitRunning, stateAtPush, hrs, hrun, hp]
  | true =>
    simp only [stateAtPush, Container.IsRestarting, hrs, if_true] at hrun hnr
    cases hp : env.UpdateResources c.ID (resourcesOf hc) <;>
      simp [updateBody, hrem, hdead, hpre, Container.UpdateContainer, hstage,
        Container.UpdateMonitor, Container.IsRestarting, Container.IsRunning,
        Container.WaitRunning, stateAtPush, hrs, hrun, hnr, hp]

/-- Body of `update` when the preconditions pass, staging succeeds and the running test of
update.go:84 fails: the runtime push is skipped. -/
theorem updateBody_skipped (env : Collaborators) (c : Container) (hc : HostConfig)
    (hrem : c.State.RemovalInProgress = false) (hdead : c.State.Dead = false)
    (hkm : c.IsRunning = true → hc.KernelMemory = 0)
    (hstage : (c.UpdateContainer env hc).2.2 = none)
    (hskip : (stateAtPush env c).Running = false ∨ (stateAtPush env c).Restarting = true) :
    updateBody env c hc =
      { container := { c with HostConfig := hc, MonitorPolicy := hc.RestartPolicy,
                              State := stateAtPush env c },
        calls := [Call.UpdateContainer c.ID hc, Call.ToDisk c.ID hc,
                  Call.UpdateMonitor c.ID hc.RestartPolicy] ++
                 (if c.IsRestarting then [Call.WaitRunning c.ID 5] else []) ++
                 [Call.LogContainerEvent c.ID "update"],
        restoreConfig := false, err := none } := by
  have hpre : (c.State.Running && hc.KernelMemory != 0) = false := by
    cases hr : c.State.Running with
    | false => rfl
    | true => simp [hkm hr]
  simp only [Container.UpdateContainer] at hstage
  cases hrs : c.State.Restarting with
  | false =>
    simp only [stateAtPush, Container.IsRestarting, hrs, Bool.false_eq_true, if_false] at hskip
    have hrun : c.State.Running = false := by
      rcases hskip with h | h
      · exact h
      · exact absurd h (by simp)
    simp [updateBody, hrem, hdead, hpre, Container.UpdateContainer, hstage,
      Container.UpdateMonitor, Container.IsRestarting, Container.IsRunning,
      Container.WaitRunning, stateAtPush, hrs, hrun]
  | true =>
    simp only [stateAtPush, Container.IsRestarting, hrs, if_true] at hskip
    have htest : ((env.WaitRunning c.ID).Running && !(env.WaitRunning c.ID).Restarting) = false := by
      rcases hskip with h | h <;> simp [h]
    simp [updateBody, hrem, hdead, hpre, Container.UpdateContainer, hstage,
      Container.UpdateMonitor, Container.IsRestarting, Container.IsRunning,
      Container.WaitRunning, stateAtPush, hrs, htest]

/-! ## Rollback -/

/-- C1 (rollback correctness): for a resolved container that is neither dead nor marked for
removal and a non-nil request that passes the kernel-memory precondition, if staging
(`Container.UpdateContainer`) fails, or staging succeeds and the runtime push
(`UpdateResources`) is issued and fails, then `update` returns a non-nil error, the name
resolves afterwards to a container whose configuration record equals the record before the
call, and the last collaborator call made before returning is `ToDisk` with that restored
record. -/
theorem update_rollback (env : Collaborators) (daemon : Daemon) (name : String)
    (hostConfig : HostConfig) (container : Container)
    (hget : daemon.GetContainer name = Except.ok container)
    (hrem : container.State.RemovalInProgress = false) (hdead : container.State.Dead = false)
    (hkm : container.IsRunning = true → hostConfig.KernelMemory = 0)
    (hfail : (∃ e, (container.UpdateContainer env hostConfig).2.2 = some e) ∨
      ((container.UpdateContainer env hostConfig).2.2 = none ∧
        (stateAtPush env container).Running = true ∧
        (stateAtPush env container).Restarting = false ∧
        ∃ e, env.UpdateResources container.ID (resourcesOf hostConfig) = some e)) :
    (∃ err, (daemon.update env name (some hostConfig)).2 = some err) ∧
      (∃ c, (daemon.update env name (some hostConfig)).1.GetContainer name = Except.ok c ∧
        c.HostConfig = container.HostConfig) ∧
      (daemon.update env name (some hostConfig)).1.calls.getLast? =
        some (Call.ToDisk container.ID container.HostConfig) := by
  rw [update_resolved env daemon name hostConfig container hget]
  rcases hfail with ⟨e, hstage⟩ | ⟨hstage, hrun, hnr, e, hpush⟩
  · rw [updateBody_stage_failed env container hostConfig e hrem hdead hkm hstage]
    refine ⟨⟨_, rfl⟩, ⟨_, GetContainer_store daemon name container _ _ hget rfl rfl, rfl⟩, ?_⟩
    simp [runDeferred]
  · rw [updateBody_pushed env container hostConfig hrem hdead hkm hstage hrun hnr, hpush]
    refine ⟨⟨_, rfl⟩, ⟨_, GetContainer_store daemon name container _ _ hget rfl rfl, rfl⟩, ?_⟩
    cases container.IsRestarting <;> simp [runDeferred]

/-- Witness for C1: the running container "web" (CPU shares 100) and a request for 200
shares, once with a runtime push that fails and once with a staging step that fails. -/
theorem update_rollback_witness :
    ((webDaemon stRunning).update pushFails "web"
          (some (mkConfig 200 0 0 policyOnFailure))).1.calls.getLast? =
        some (Call.ToDisk "c0ffee" (mkConfig 100 0 0 policyNo)) ∧
      ((webDaemon stRunning).update diskFails "web"
          (some (mkConfig 200 0 0 policyOnFailure))).1.calls.getLast? =
        some (Call.ToDisk "c0ffee" (mkConfig 100 0 0 policyNo)) :=
  ⟨(update_rollback pushFails (webDaemon stRunning) "web" (mkConfig 200 0 0 policyOnFailure)
      (web stRunning) rfl rfl rfl (fun _ => rfl)
      (Or.inr ⟨rfl, rfl, rfl, "rpc error", rfl⟩)).2.2,
   (update_rollback diskFails (webDaemon stRunning) "web" (mkConfig 200 0 0 policyOnFailure)
      (web stRunning) rfl rfl rfl (fun _ => rfl) (Or.inl ⟨"disk full", rfl⟩)).2.2⟩

/-- C10 (rollback does not cover the restart monitor): for a resolved container that is
running and not restarting (not dead, not marked for removal) and a request with zero
kernel-memory limit whose staging succeeds, if the runtime push fails with `e` then
`update` returns "Cannot update container <ID>: e"; the calls made are, in order, the
staging call, its `ToDisk`, one `UpdateMonitor` with the requested restart policy, the
failed `UpdateResources`, and the `ToDisk` of the restored record, so the monitor is handed
the requested policy exactly once and never the old one; afterwards the monitor holds the
requested policy while the configuration record, restart policy included, is the
snapshot taken before the update. -/
theorem update_push_failure_keeps_monitor (env : Collaborators) (daemon : Daemon)
    (name : String) (hostConfig : HostConfig) (container : Container) (e : Error)
    (hget : daemon.GetContainer name = Except.ok container)
    (hrem : container.State.RemovalInProgress = false) (hdead : container.State.Dead = false)
    (hrun : container.State.Running = true) (hnr : container.State.Restarting = false)
    (hkm : hostConfig.KernelMemory = 0)
    (hstage : (container.UpdateContainer env hostConfig).2.2 = none)
    (hpush : env.UpdateResources container.ID (resourcesOf hostConfig) = some e) :
    (daemon.update env name (some hostConfig)).2 = some (errCannotUpdate container.ID e) ∧
      (daemon.update env name (some hostConfig)).1.calls = daemon.calls ++
        [Call.UpdateContainer container.ID hostConfig, Call.ToDisk container.ID hostConfig,
         Call.UpdateMonitor container.ID hostConfig.RestartPolicy,
         Call.UpdateResources container.ID (resourcesOf hostConfig),
         Call.ToDisk container.ID container.HostConfig] ∧
      (∃ c, (daemon.update env name (some hostConfig)).1.GetContainer name = Except.ok c ∧
        c.MonitorPolicy = hostConfig.RestartPolicy ∧
        c.HostConfig = container.HostConfig ∧
        c.HostConfig.RestartPolicy = container.HostConfig.RestartPolicy) := by
  have hrun2 : (stateAtPush env container).Running = true := by
    simp [stateAtPush, Container.IsRestarting, hnr, hrun]
  have hnr2 : (stateAtPush env container).Restarting = false := by
    simp [stateAtPush, Container.IsRestarting, hnr]
  rw [update_resolved env daemon name hostConfig container hget,
    updateBody_pushed env container hostConfig hrem hdead (fun _ => hkm) hstage hrun2 hnr2, hpush]
  refine ⟨rfl, ?_, ⟨_, GetContainer_store daemon name container _ _ hget rfl rfl, rfl, rfl, rfl⟩⟩
  simp [runDeferred, Container.IsRestarting, hnr]

/-- Witness for C10: "web" runs with policy "no"; the request asks for "on-failure" and the
runtime push fails. -/
theorem update_push_failure_keeps_monitor_witness :
    ((webDaemon stRunning).update pushFails "web"
        (some (mkConfig 200 0 0 policyOnFailure))).2 =
      some (errCannotUpdate "c0ffee" "rpc error") :=
  (update_push_failure_keeps_monitor pushFails (webDaemon stRunning) "web"
    (mkConfig 200 0 0 policyOnFailure) (web stRunning) "rpc error" rfl rfl rfl rfl rfl rfl rfl
    rfl).1

/-! ## Successful updates -/

/-- The value `uint32 x`, read as an integer, is `x` modulo `2^32`. -/
theorem uint32_cast (x : Int) : ((uint32 x : Nat) : Int) = x % 2 ^ 32 := by
  unfold uint32
  exact Int.toNat_of_nonneg (Int.emod_nonneg x (by norm_num))

/-- The conversion `uint32 x` keeps `x` exactly when `x` lies in `[0, 2^32)`. -/
theorem uint32_exact_iff (x : Int) : ((uint32 x : Nat) : Int) = x ↔ 0 ≤ x ∧ x < 2 ^ 32 := by
  rw [uint32_cast]
  constructor
  · intro h
    constructor
    · rw [← h]; exact Int.emod_nonneg x (by norm_num)
    · rw [← h]; exact Int.emod_lt_of_pos x (by norm_num)
  · rintro ⟨h0, h1⟩
    exact Int.emod_eq_of_lt h0 h1

/-- C4 (successful live update): for a resolved container that is running and not
restarting (not dead, not marked for removal) and a request with zero kernel-memory limit
and CPU shares `s` with `0 ≤ s < 2^32`, when verification, staging and the runtime push
succeed, `ContainerUpdate` returns the warnings and no error; (a) the name resolves
afterwards to a container whose record is the requested one, with CPU shares `s`, and that
record was handed to `ToDisk`; (b) the calls made are exactly the staging call, its
`ToDisk`, one `UpdateMonitor`, one `UpdateResources` for the container's ID whose request
has CPU shares `s`, and (c) one "update" event. -/
theorem ContainerUpdate_live_success (env : Collaborators) (daemon : Daemon) (name : String)
    (hostConfig : HostConfig) (container : Container) (s : Int)
    (hget : daemon.GetContainer name = Except.ok container)
    (hrem : container.State.RemovalInProgress = false) (hdead : container.State.Dead = false)
    (hrun : container.State.Running = true) (hnr : container.State.Restarting = false)
    (hkm : hostConfig.KernelMemory = 0)
    (hshares : hostConfig.CPUShares = s) (hlo : 0 ≤ s) (hhi : s < 2 ^ 32)
    (hverify : (env.verifyContainerSettings (some hostConfig)).2 = none)
    (hstage : (container.UpdateContainer env hostConfig).2.2 = none)
    (hpush : env.UpdateResources container.ID (resourcesOf hostConfig) = none) :
    (daemon.ContainerUpdate env name (some hostConfig)).2.2 = none ∧
      (daemon.ContainerUpdate env name (some hostConfig)).2.1 =
        (env.verifyContainerSettings (some hostConfig)).1 ∧
      (∃ c, (daemon.ContainerUpdate env name (some hostConfig)).1.GetContainer name =
          Except.ok c ∧ c.HostConfig = hostConfig ∧ c.HostConfig.CPUShares = s) ∧
      (daemon.ContainerUpdate env name (some hostConfig)).1.calls = daemon.calls ++
        [Call.UpdateContainer container.ID hostConfig, Call.ToDisk container.ID hostConfig,
         Call.UpdateMonitor container.ID hostConfig.RestartPolicy,
         Call.UpdateResources container.ID (resourcesOf hostConfig),
         Call.LogContainerEvent container.ID "update"] ∧
      ((resourcesOf hostConfig).CpuShares : Int) = s := by
  have hrun2 : (stateAtPush env container).Running = true := by
    simp [stateAtPush, Container.IsRestarting, hnr, hrun]
  have hnr2 : (stateAtPush env container).Restarting = false := by
    simp [stateAtPush, Container.IsRestarting, hnr]
  rw [ContainerUpdate_verified env daemon name (some hostConfig) hverify,
    update_resolved env daemon name hostConfig container hget,
    updateBody_pushed env container hostConfig hrem hdead (fun _ => hkm) hstage hrun2 hnr2, hpush]
  refine ⟨rfl, rfl, ⟨_, GetContainer_store daemon name container _ _ hget rfl rfl, rfl, hshares⟩,
    ?_, ?_⟩
  · simp [runDeferred, Container.IsRestarting, hnr]
  · have h := (uint32_exact_iff hostConfig.CPUShares).2 ⟨hshares ▸ hlo, hshares ▸ hhi⟩
    simpa [resourcesOf, hshares] using h

/-- Witness for C4: the running container "web" with CPU shares 100 is updated to 200. -/
theorem ContainerUpdate_live_success_witness :
    ((webDaemon stRunning).ContainerUpdate acceptAll "web"
        (some (mkConfig 200 0 0 policyNo))).1.calls =
      (webDaemon stRunning).calls ++
        [Call.UpdateContainer "c0ffee" (mkConfig 200 0 0 policyNo),
         Call.ToDisk "c0ffee" (mkConfig 200 0 0 policyNo),
         Call.UpdateMonitor "c0ffee" policyNo,
         Call.UpdateResources "c0ffee" (resourcesOf (mkConfig 200 0 0 policyNo)),
         Call.LogContainerEvent "c0ffee" "update"] :=
  (ContainerUpdate_live_success acceptAll (webDaemon stRunning) "web" (mkConfig 200 0 0 policyNo)
    (web stRunning) 200 rfl rfl rfl rfl rfl rfl rfl (by decide) (by decide) rfl rfl rfl).2.2.2.1

/-- C5 (a stopped container skips the runtime push): for a resolved container whose
running flag is clear (not dead, not marked for removal, not restarting) and a request
whose staging succeeds, `update` returns no error; the name resolves afterwards to a
container whose record is the requested one; the calls made are exactly the staging call,
the `ToDisk` of the requested record, one `UpdateMonitor` and one "update" event; no
`UpdateResources` entry is added to the call log. -/
theorem update_stopped_skips_push (env : Collaborators) (daemon : Daemon) (name : String)
    (hostConfig : HostConfig) (container : Container)
    (hget : daemon.GetContainer name = Except.ok container)
    (hrem : container.State.RemovalInProgress = false) (hdead : container.State.Dead = false)
    (hstop : container.State.Running = false) (hnr : container.State.Restarting = false)
    (hstage : (container.UpdateContainer env hostConfig).2.2 = none) :
    (daemon.update env name (some hostConfig)).2 = none ∧
      (∃ c, (daemon.update env name (some hostConfig)).1.GetContainer name = Except.ok c ∧
        c.HostConfig = hostConfig) ∧
      (daemon.update env name (some hostConfig)).1.calls = daemon.calls ++
        [Call.UpdateContainer container.ID hostConfig, Call.ToDisk container.ID hostConfig,
         Call.UpdateMonitor container.ID hostConfig.RestartPolicy,
         Call.LogContainerEvent container.ID "update"] ∧
      (∀ id r, Call.UpdateResources id r ∈ (daemon.update env name (some hostConfig)).1.calls →
        Call.UpdateResources id r ∈ daemon.calls) := by
  have hskip : (stateAtPush env container).Running = false ∨
      (stateAtPush env container).Restarting = true := by
    left
    simp [stateAtPush, Container.IsRestarting, hnr, hstop]
  have hkm : container.IsRunning = true → hostConfig.KernelMemory = 0 := by
    intro h
    rw [Container.IsRunning, hstop] at h
    exact absurd h (by decide)
  rw [update_resolved env daemon name hostConfig container hget,
    updateBody_skipped env container hostConfig hrem hdead hkm hstage hskip]
  refine ⟨rfl, ⟨_, GetContainer_store daemon name container _ _ hget rfl rfl, rfl⟩, ?_, ?_⟩
  · simp [runDeferred, Container.IsRestarting, hnr]
  · intro id r hmem
    simpa [runDeferred, Container.IsRestarting, hnr] using hmem

/-- Witness for C5: the stopped container "web" gets memory limit 104857600 (and a non-zero
kernel-memory limit, which is allowed while stopped). -/
theorem update_stopped_skips_push_witness :
    ((webDaemon stStopped).update acceptAll "web"
        (some (mkConfig 100 104857600 4194304 policyNo))).1.calls =
      (webDaemon stStopped).calls ++
        [Call.UpdateContainer "c0ffee" (mkConfig 100 104857600 4194304 policyNo),
         Call.ToDisk "c0ffee" (mkConfig 100 104857600 4194304 policyNo),
         Call.UpdateMonitor "c0ffee" policyNo,
         Call.LogContainerEvent "c0ffee" "update"] :=
  (update_stopped_skips_push acceptAll (webDaemon stStopped) "web"
    (mkConfig 100 104857600 4194304 policyNo) (web stStopped) rfl rfl rfl rfl rfl rfl).2.2.1

/-- C6 (a restart-wait timeout does not fail the update): for a resolved container that
is restarting (not dead, not marked for removal, kernel-memory precondition passing) whose
bounded wait returns with the container still restarting, when staging succeeds `update`
returns no error; the calls made are, in order, the staging call, its `ToDisk`, one
`UpdateMonitor` with the requested restart policy, the 5-second `WaitRunning`, and one
"update" event, with no `UpdateResources`; afterwards the monitor holds the requested
policy and the record is the requested one. -/
theorem update_restart_wait_timeout (env : Collaborators) (daemon : Daemon) (name : String)
    (hostConfig : HostConfig) (container : Container)
    (hget : daemon.GetContainer name = Except.ok container)
    (hrem : container.State.RemovalInProgress = false) (hdead : container.State.Dead = false)
    (hkm : container.IsRunning = true → hostConfig.KernelMemory = 0)
    (hrs : container.State.Restarting = true)
    (hstuck : (env.WaitRunning container.ID).Restarting = true)
    (hstage : (container.UpdateContainer env hostConfig).2.2 = none) :
    (daemon.update env name (some hostConfig)).2 = none ∧
      (daemon.update env name (some hostConfig)).1.calls = daemon.calls ++
        [Call.UpdateContainer container.ID hostConfig, Call.ToDisk container.ID hostConfig,
         Call.UpdateMonitor container.ID hostConfig.RestartPolicy,
         Call.WaitRunning container.ID 5,
         Call.LogContainerEvent container.ID "update"] ∧
      (∃ c, (daemon.update env name (some hostConfig)).1.GetContainer name = Except.ok c ∧
        c.MonitorPolicy = hostConfig.RestartPolicy ∧ c.HostConfig = hostConfig) := by
  have hskip : (stateAtPush env container).Running = false ∨
      (stateAtPush env container).Restarting = true := by
    right
    simp [stateAtPush, Container.IsRestarting, hrs, hstuck]
  rw [update_resolved env daemon name hostConfig container hget,
    updateBody_skipped env container hostConfig hrem hdead hkm hstage hskip]
  refine ⟨rfl, ?_, ⟨_, GetContainer_store daemon name container _ _ hget rfl rfl, rfl, rfl⟩⟩
  simp [runDeferred, Container.IsRestarting, hrs]

/-- Witness for C6: "web" is in its restart cycle and the wait times out. -/
theorem update_restart_wait_timeout_witness :
    ((webDaemon stRestarting).update waitTimesOut "web"
        (some (mkConfig 200 0 0 policyOnFailure))).2 = none :=
  (update_restart_wait_timeout waitTimesOut (webDaemon stRestarting) "web"
    (mkConfig 200 0 0 policyOnFailure) (web stRestarting) rfl rfl rfl (fun _ => rfl) rfl rfl
    rfl).1

/-! ## Unknown containers -/

/-- C7, as stated, fails for a nil request: with an empty registry the name "ghost" resolves
to no container, a nil request passes verification, and `ContainerUpdate` returns no error
instead of the not-found error. -/
theorem nil_request_for_unknown_name_succeeds :
    emptyDaemon.GetContainer "ghost" = Except.error "No such container: ghost" ∧
      (acceptAll.verifyContainerSettings none).2 = none ∧
      (emptyDaemon.ContainerUpdate acceptAll "ghost" none).2.2 = none :=
  ⟨rfl, rfl, rfl⟩

/-- C7, amended: when the name resolves to no container (`GetContainer` fails with `e`),
`ContainerUpdate` with a non-nil request that passes verification returns the warnings and
exactly the error `e`, and the daemon (registry and call log) is unchanged: no mutation, no
persistence, monitor, runtime-push or event call.  With a nil request that passes
verification it returns no error, the name is never resolved, and the daemon is unchanged
as well. -/
theorem ContainerUpdate_unknown (env : Collaborators) (daemon : Daemon) (name : String)
    (e : Error) (hget : daemon.GetContainer name = Except.error e) :
    (∀ hostConfig : HostConfig, (env.verifyContainerSettings (some hostConfig)).2 = none →
        daemon.ContainerUpdate env name (some hostConfig) =
          (daemon, (env.verifyContainerSettings (some hostConfig)).1, some e)) ∧
      ((env.verifyContainerSettings none).2 = none →
        daemon.ContainerUpdate env name none =
          (daemon, (env.verifyContainerSettings none).1, none)) := by
  constructor
  · intro hostConfig hverify
    rw [ContainerUpdate_verified env daemon name (some hostConfig) hverify]
    simp [Daemon.update, hget]
  · intro hverify
    rw [ContainerUpdate_verified env daemon name none hverify]
    rfl

/-- Witness for C7 amended: the unknown name "ghost", with a non-nil request and with a
nil one. -/
theorem ContainerUpdate_unknown_witness :
    emptyDaemon.ContainerUpdate acceptAll "ghost" (some (mkConfig 200 0 0 policyNo)) =
        (emptyDaemon, [], some "No such container: ghost") ∧
      emptyDaemon.ContainerUpdate acceptAll "ghost" none = (emptyDaemon, [], none) :=
  ⟨(ContainerUpdate_unknown acceptAll emptyDaemon "ghost" "No such container: ghost" rfl).1
      (mkConfig 200 0 0 policyNo) rfl,
   (ContainerUpdate_unknown acceptAll emptyDaemon "ghost" "No such container: ghost" rfl).2 rfl⟩

/-! ## Resource translation -/

/-- Every `UpdateResources` call made by the body of `update` carries `resourcesOf` of the
requested configuration. -/
theorem updateBody_push_request (env : Collaborators) (c : Container) (hc backup : HostConfig)
    (id : String) (r : Resources)
    (hmem : Call.UpdateResources id r ∈ (runDeferred backup (updateBody env c hc)).calls) :
    r = resourcesOf hc := by
  by_cases hflag : (c.State.RemovalInProgress || c.State.Dead) = true
  · simp [updateBody, hflag, runDeferred] at hmem
  by_cases hguard : (c.IsRunning && hc.KernelMemory != 0) = true
  · simp [updateBody, hflag, hguard, runDeferred] at hmem
  have hrem : c.State.RemovalInProgress = false := by
    cases h : c.State.RemovalInProgress
    · rfl
    · simp [h] at hflag
  have hdead : c.State.Dead = false := by
    cases h : c.State.Dead
    · rfl
    · simp [h] at hflag
  have hkm : c.IsRunning = true → hc.KernelMemory = 0 := by
    intro h
    simpa [h] using hguard
  cases hstage : (c.UpdateContainer env hc).2.2 with
  | some e =>
    rw [updateBody_stage_failed env c hc e hrem hdead hkm hstage] at hmem
    simp [runDeferred] at hmem
  | none =>
    by_cases hpushed : (stateAtPush env c).Running = true ∧ (stateAtPush env c).Restarting = false
    · rw [updateBody_pushed env c hc hrem hdead hkm hstage hpushed.1 hpushed.2] at hmem
      cases hp : env.UpdateResources c.ID (resourcesOf hc) <;>
        cases hr : c.IsRestarting <;>
        simp [hp, hr, runDeferred] at hmem <;>
        exact hmem.2
    · have hskip : (stateAtPush env c).Running = false ∨ (stateAtPush env c).Restarting = true := by
        cases h1 : (stateAtPush env c).Running
        · exact Or.inl rfl
        · cases h2 : (stateAtPush env c).Restarting
          · exact absurd ⟨h1, h2⟩ hpushed
          · exact Or.inr rfl
      rw [updateBody_skipped env c hc hrem hdead hkm hstage hskip] at hmem
      cases hr : c.IsRestarting <;> simp [hr, runDeferred] at hmem

/-- C8 (resource translation is a field-wise unchecked narrowing): in the request built from
a configuration record the two cpuset strings are the record's; each of the eight numeric
fields is the record's value modulo `2^32`, hence equal to the record's value exactly when
that value lies in `[0, 2^32)`; and whatever the daemon, the collaborators and the name,
every `UpdateResources` call that `update` adds to the call log carries exactly
`resourcesOf` of the requested record. -/
theorem resourcesOf_narrowing (hostConfig : HostConfig) :
    (resourcesOf hostConfig).CpusetCpus = hostConfig.CpusetCpus ∧
      (resourcesOf hostConfig).CpusetMems = hostConfig.CpusetMems ∧
      (((resourcesOf hostConfig).BlkioWeight : Int) = hostConfig.BlkioWeight % 2 ^ 32 ∧
        ((resourcesOf hostConfig).CpuShares : Int) = hostConfig.CPUShares % 2 ^ 32 ∧
        ((resourcesOf hostConfig).CpuPeriod : Int) = hostConfig.CPUPeriod % 2 ^ 32 ∧
        ((resourcesOf hostConfig).CpuQuota : Int) = hostConfig.CPUQuota % 2 ^ 32 ∧
        ((resourcesOf hostConfig).MemoryLimit : Int) = hostConfig.Memory % 2 ^ 32 ∧
        ((resourcesOf hostConfig).MemorySwap : Int) = hostConfig.MemorySwap % 2 ^ 32 ∧
        ((resourcesOf hostConfig).MemoryReservation : Int) =
          hostConfig.MemoryReservation % 2 ^ 32 ∧
        ((resourcesOf hostConfig).KernelMemoryLimit : Int) =
          hostConfig.KernelMemory % 2 ^ 32) ∧
      ((((resourcesOf hostConfig).BlkioWeight : Int) = hostConfig.BlkioWeight ↔
          0 ≤ hostConfig.BlkioWeight ∧ hostConfig.BlkioWeight < 2 ^ 32) ∧
        (((resourcesOf hostConfig).CpuShares : Int) = hostConfig.CPUShares ↔
          0 ≤ hostConfig.CPUShares ∧ hostConfig.CPUShares < 2 ^ 32) ∧
        (((resourcesOf hostConfig).CpuPeriod : Int) = hostConfig.CPUPeriod ↔
          0 ≤ hostConfig.CPUPeriod ∧ hostConfig.CPUPeriod < 2 ^ 32) ∧
        (((resourcesOf hostConfig).CpuQuota : Int) = hostConfig.CPUQuota ↔
          0 ≤ hostConfig.CPUQuota ∧ hostConfig.CPUQuota < 2 ^ 32) ∧
        (((resourcesOf hostConfig).MemoryLimit : Int) = hostConfig.Memory ↔
          0 ≤ hostConfig.Memory ∧ hostConfig.Memory < 2 ^ 32) ∧
        (((resourcesOf hostConfig).MemorySwap : Int) = hostConfig.MemorySwap ↔
          0 ≤ hostConfig.MemorySwap ∧ hostConfig.MemorySwap < 2 ^ 32) ∧
        (((resourcesOf hostConfig).MemoryReservation : Int) = hostConfig.MemoryReservation ↔
          0 ≤ hostConfig.MemoryReservation ∧ hostConfig.MemoryReservation < 2 ^ 32) ∧
        (((resourcesOf hostConfig).KernelMemoryLimit : Int) = hostConfig.KernelMemory ↔
          0 ≤ hostConfig.KernelMemory ∧ hostConfig.KernelMemory < 2 ^ 32)) ∧
      (∀ (env : Collaborators) (daemon : Daemon) (name id : String) (r : Resources),
        Call.UpdateResources id r ∈ (daemon.update env name (some hostConfig)).1.calls →
          Call.UpdateResources id r ∈ daemon.calls ∨ r = resourcesOf hostConfig) := by
  refine ⟨rfl, rfl, ⟨uint32_cast _, uint32_cast _, uint32_cast _, uint32_cast _, uint32_cast _,
    uint32_cast _, uint32_cast _, uint32_cast _⟩,
    ⟨uint32_exact_iff _, uint32_exact_iff _, uint32_exact_iff _, uint32_exact_iff _,
      uint32_exact_iff _, uint32_exact_iff _, uint32_exact_iff _, uint32_exact_iff _⟩, ?_⟩
  intro env daemon name id r hmem
  cases hget : daemon.GetContainer name with
  | error e =>
    left
    simpa [Daemon.update, hget] using hmem
  | ok c =>
    rw [update_resolved env daemon name hostConfig c hget] at hmem
    simp only [List.mem_append] at hmem
    rcases hmem with h | h
    · exact Or.inl h
    · exact Or.inr (updateBody_push_request env c hostConfig c.HostConfig id r h)

/-- Witness for C8: updating the running container "web" to 4294967301 CPU shares logs a
push, and that push carries the translation of the requested record. -/
theorem resourcesOf_narrowing_witness :
    Call.UpdateResources "c0ffee" (resourcesOf (mkConfig 4294967301 0 0 policyNo)) ∈
        ((webDaemon stRunning).update acceptAll "web"
          (some (mkConfig 4294967301 0 0 policyNo))).1.calls ∧
      (Call.UpdateResources "c0ffee" (resourcesOf (mkConfig 4294967301 0 0 policyNo)) ∈
          (webDaemon stRunning).calls ∨
        resourcesOf (mkConfig 4294967301 0 0 policyNo) =
          resourcesOf (mkConfig 4294967301 0 0 policyNo)) :=
  ⟨by decide,
   (resourcesOf_narrowing (mkConfig 4294967301 0 0 policyNo)).2.2.2.2 acceptAll
    (webDaemon stRunning) "web" "c0ffee" (resourcesOf (mkConfig 4294967301 0 0 policyNo))
    (by decide)⟩

/-- Out-of-range values wrap: 4294967301 CPU shares become 5, and a memory limit of -1
becomes 4294967295. -/
theorem resourcesOf_wraps :
    (resourcesOf (mkConfig 4294967301 (-1) 0 policyNo)).CpuShares = 5 ∧
      (resourcesOf (mkConfig 4294967301 (-1) 0 policyNo)).MemoryLimit = 4294967295 := by
  decide

/-! ## Build-time command rewrite -/

/-- C9 (`ContainerUpdateCmdOnBuild` rewrites only path and args): if the ID resolves to a
container and the command list is not empty, the operation returns no error; afterwards
the ID resolves to a container whose path followed by its arguments is the command list,
and whose ID, name, configuration record, lifecycle flags and monitor policy are the old
ones; the call log is unchanged.  If the ID resolves to no container, the operation returns
the lookup error and the daemon is unchanged, whatever the command list. -/
theorem ContainerUpdateCmdOnBuild_frame (daemon : Daemon) (cID : String) (cmd : List String) :
    (∀ c, daemon.GetContainer cID = Except.ok c → cmd ≠ [] →
        ∃ daemon1 c1, daemon.ContainerUpdateCmdOnBuild cID cmd = some (daemon1, none) ∧
          daemon1.GetContainer cID = Except.ok c1 ∧
          c1.Path :: c1.Args = cmd ∧ some c1.Path = cmd.head? ∧ c1.Args = cmd.tail ∧
          c1.ID = c.ID ∧ c1.Name = c.Name ∧ c1.HostConfig = c.HostConfig ∧
          c1.State = c.State ∧ c1.MonitorPolicy = c.MonitorPolicy ∧
          daemon1.calls = daemon.calls) ∧
      (∀ e, daemon.GetContainer cID = Except.error e →
        daemon.ContainerUpdateCmdOnBuild cID cmd = some (daemon, some e)) := by
  constructor
  · intro c hget hne
    cases cmd with
    | nil => exact absurd rfl hne
    | cons path args =>
      refine ⟨daemon.store cID { c with Path := path, Args := args },
        { c with Path := path, Args := args }, ?_, ?_, rfl, rfl, rfl, rfl, rfl, rfl, rfl, rfl, rfl⟩
      · simp [Daemon.ContainerUpdateCmdOnBuild, hget]
      · exact GetContainer_store daemon cID c _ daemon.calls hget rfl rfl
  · intro e hget
    simp [Daemon.ContainerUpdateCmdOnBuild, hget]

/-- Witness for C9: the command of "web" is rewritten to `/bin/echo hello world`, and the
unknown ID "ghost" yields the lookup error. -/
theorem ContainerUpdateCmdOnBuild_frame_witness :
    (∃ daemon1 c1, (webDaemon stStopped).ContainerUpdateCmdOnBuild "c0ffee"
          ["/bin/echo", "hello", "world"] = some (daemon1, none) ∧
        daemon1.GetContainer "c0ffee" = Except.ok c1 ∧
        c1.Path :: c1.Args = ["/bin/echo", "hello", "world"] ∧
        some c1.Path = ["/bin/echo", "hello", "world"].head? ∧
        c1.Args = ["/bin/echo", "hello", "world"].tail ∧
        c1.ID = (web stStopped).ID ∧ c1.Name = (web stStopped).Name ∧
        c1.HostConfig = (web stStopped).HostConfig ∧
        c1.State = (web stStopped).State ∧ c1.MonitorPolicy = (web stStopped).MonitorPolicy ∧
        daemon1.calls = (webDaemon stStopped).calls) ∧
      emptyDaemon.ContainerUpdateCmdOnBuild "ghost" [] =
        some (emptyDaemon, some "No such container: ghost") :=
  ⟨(ContainerUpdateCmdOnBuild_frame (webDaemon stStopped) "c0ffee"
      ["/bin/echo", "hello", "world"]).1 (web stStopped) rfl (by decide),
   (ContainerUpdateCmdOnBuild_frame emptyDaemon "ghost" []).2 "No such container: ghost" rfl⟩

end DockerUpdate
